import Mathlib

/-!
# Lingo-Voice: shallow embedding of the translation session core (src/app.py)

The embedded fragment covers:

* `LANGUAGES` — the static display-name → NLLB-code mapping (app.py lines 43-64),
  modelled as an insertion-ordered association list (Python 3.7+ dicts preserve
  insertion order, and `list(LANGUAGES.keys())` enumerates in that order);
* `load_model` and the "Load Model" button handler (lines 66-76, 130-139);
* `translate_text` (lines 78-99) with the external generation collaborator
  (`tokenizer`/`model.generate`/`batch_decode`) abstracted as a function
  returning `Except` — an exception anywhere inside the `try` block is caught
  and surfaces as `st.error(...)` plus a `None` return;
* the "Translate" button handler (lines 168-200) and the
  "Clear Chat History" handler (lines 147-149), as step functions on the
  session state (`st.session_state`); the UI calls (`st.error`, the output
  text area, `st.success`) made during a step are returned as a `Display` list.

Python truthiness matters in two places and is modelled explicitly: the load
handler's `if tokenizer and model:` (objects are truthy, `None` is falsy), and
the translate handler's `if translation:` (falsy for both `None` and `""`).
-/

set_option autoImplicit false

namespace LingoVoice

/-- Opaque tokenizer handle (`AutoTokenizer.from_pretrained` result). -/
structure Tokenizer where
  id : Nat
deriving DecidableEq

/-- Opaque model handle (`AutoModelForSeq2SeqLM.from_pretrained` result). -/
structure Model where
  id : Nat
deriving DecidableEq

/-- One chat-history entry, the dict appended at app.py lines 185-190. -/
structure Exchange where
  source : String
  target : String
  original : String
  translation : String
deriving DecidableEq

/-- The `st.session_state` fields the core uses (app.py lines 106-112). -/
structure SessionState where
  model_loaded : Bool
  tokenizer : Option Tokenizer
  model : Option Model
  messages : List Exchange
deriving DecidableEq

/-- Initial session state (app.py lines 106-112). -/
def initialState : SessionState :=
  { model_loaded := false, tokenizer := none, model := none, messages := [] }

/-- The UI calls a handler makes while running (st.error / output / st.success). -/
inductive Display where
  | errorNotLoaded
  | errorEmptyInput
  | errorTranslation (cause : String)
  | showTranslation (text : String)
  | successBanner
deriving DecidableEq

/-- `LANGUAGES` dict, app.py lines 43-64, in source order. -/
def LANGUAGES : List (String × String) :=
  [("English", "eng_Latn"),
   ("Spanish", "spa_Latn"),
   ("French", "fra_Latn"),
   ("German", "deu_Latn"),
   ("Chinese (Simplified)", "zho_Hans"),
   ("Chinese (Traditional)", "zho_Hant"),
   ("Japanese", "jpn_Jpan"),
   ("Korean", "kor_Hang"),
   ("Arabic", "arb_Arab"),
   ("Hindi", "hin_Deva"),
   ("Portuguese", "por_Latn"),
   ("Russian", "rus_Cyrl"),
   ("Italian", "ita_Latn"),
   ("Dutch", "nld_Latn"),
   ("Turkish", "tur_Latn"),
   ("Vietnamese", "vie_Latn"),
   ("Thai", "tha_Thai"),
   ("Polish", "pol_Latn"),
   ("Swedish", "swe_Latn"),
   ("Norwegian", "nno_Latn")]

/-- Characters removed by Python `str.strip()` (ASCII whitespace fragment). -/
def pyIsSpace (c : Char) : Bool :=
  c = ' ' || c = '\t' || c = '\n' || c = '\r' || c = '\x0b' || c = '\x0c'

/-- Python `s.strip()`: remove leading and trailing whitespace. -/
def pyStrip (s : String) : String :=
  String.mk (List.reverse (List.dropWhile pyIsSpace
    (List.reverse (List.dropWhile pyIsSpace s.data))))

/-- Python `d.get(key, default)` on an insertion-ordered dict (keys unique). -/
def dictGet (d : List (String × String)) (key dflt : String) : String :=
  match d.find? (fun p => p.1 == key) with
  | some p => p.2
  | none => dflt

/-- `list(LANGUAGES.keys())`, the selectbox options (app.py lines 118-128). -/
def listNames : List String := LANGUAGES.map Prod.fst

/-- The external generation collaborator: everything inside `translate_text`'s
`try` after code resolution (setting `tokenizer.src_lang`, tokenizing,
`model.generate` with the forced target-language BOS token, `batch_decode` and
taking candidate `[0]`). Arguments: tokenizer handle, model handle, text,
source code, target code. Raising is `Except.error`. -/
abbrev Gen := Option Tokenizer → Option Model → String → String → String →
  Except String String

/-- `load_model` (app.py lines 66-76): on success returns the pair, on any
exception shows an error and returns `(None, None)`. -/
def load_model (loader : Except String (Tokenizer × Model)) :
    Option Tokenizer × Option Model :=
  match loader with
  | Except.ok (t, m) => (some t, some m)
  | Except.error _ => (none, none)

/-- "Load Model" button handler (app.py lines 130-139): stores both handles and
sets `model_loaded` only when `if tokenizer and model:` is truthy; otherwise
shows "Failed to load model" and changes nothing. -/
def loadModelStep (st : SessionState) (loader : Except String (Tokenizer × Model)) :
    SessionState :=
  match load_model loader with
  | (some t, some m) =>
      { st with tokenizer := some t, model := some m, model_loaded := true }
  | (some _, none) => st
  | (none, _) => st

/-- `translate_text` (app.py lines 78-99): resolves the language codes with the
silent `.get` defaults (`"eng_Latn"` / `"spa_Latn"`), calls the generation
collaborator, and on any exception shows "Translation error: ..." and returns
`None`. -/
def translate_text (gen : Gen) (text source_lang target_lang : String)
    (tokenizer : Option Tokenizer) (model : Option Model) :
    Option String × List Display :=
  let source_lang_code := dictGet LANGUAGES source_lang "eng_Latn"
  let target_lang_code := dictGet LANGUAGES target_lang "spa_Latn"
  match gen tokenizer model text source_lang_code target_lang_code with
  | Except.ok translation => (some translation, [])
  | Except.error e => (none, [Display.errorTranslation e])

/-- "Translate" button handler (app.py lines 168-200). Guard order as in the
source: `model_loaded` first, then `user_input.strip()`. The final
`if translation:` is Python truthiness on `Optional[str]`: falsy for `None`
and for `""`, in either case nothing is appended and nothing more displayed. -/
def translateStep (st : SessionState) (user_input source_lang target_lang : String)
    (gen : Gen) : SessionState × List Display :=
  if st.model_loaded = false then
    (st, [Display.errorNotLoaded])
  else if pyStrip user_input = "" then
    (st, [Display.errorEmptyInput])
  else
    match translate_text gen user_input source_lang target_lang
        st.tokenizer st.model with
    | (some translation, disp) =>
        if translation = "" then
          (st, disp)
        else
          ({ st with messages := st.messages ++
              [{ source := source_lang, target := target_lang,
                 original := user_input, translation := translation }] },
           disp ++ [Display.showTranslation translation, Display.successBanner])
    | (none, disp) => (st, disp)

/-- "Clear Chat History" button handler (app.py lines 147-149). -/
def clearHistoryStep (st : SessionState) : SessionState :=
  { st with messages := [] }

/-- `getHistory()`: the rendered transcript is `st.session_state.messages` in
insertion order (app.py lines 203-219). -/
def getHistory (st : SessionState) : List Exchange := st.messages

/-! ## Concrete fixtures used by witnesses and counterexamples -/

def tok0 : Tokenizer := ⟨0⟩

def mdl0 : Model := ⟨0⟩

/-- A loaded session with empty history. -/
def loadedEmptyState : SessionState :=
  { model_loaded := true, tokenizer := some tok0, model := some mdl0, messages := [] }

def exHello : Exchange :=
  { source := "English", target := "Spanish", original := "Hello", translation := "Hola" }

/-- A loaded session whose history holds one exchange. -/
def loadedOneState : SessionState :=
  { model_loaded := true, tokenizer := some tok0, model := some mdl0, messages := [exHello] }

/-- Generation stub that succeeds with a non-empty result. -/
def genHola : Gen := fun _ _ _ _ _ => Except.ok "Hola"

/-- Generation stub that succeeds but decodes to the empty string. -/
def genEmptyResult : Gen := fun _ _ _ _ _ => Except.ok ""

/-- Generation stub that raises. -/
def genBoom : Gen := fun _ _ _ _ _ => Except.error "boom"

/-! ## Helper lemmas -/

/-- A key absent from the dict resolves to the supplied default. -/
theorem dictGet_of_not_mem (d : List (String × String)) (key dflt : String)
    (h : ¬ key ∈ d.map Prod.fst) : dictGet d key dflt = dflt := by
  have hfind : d.find? (fun p => p.1 == key) = none := by
    rw [List.find?_eq_none]
    intro p hp
    simp only [beq_iff_eq]
    intro hk
    exact h (List.mem_map.mpr ⟨p, hp, hk⟩)
  simp [dictGet, hfind]

/-! ## Claim theorems -/

/-- Claim C1, counterexample: with the backend loaded and non-empty input, a
generation collaborator that succeeds with the empty string appends nothing to
history, so the length does not increase by 1 as the claim requires for every
collaborator success. -/
theorem c1_counterexample :
    ¬ ((translateStep loadedEmptyState "Hello" "English" "Spanish"
        genEmptyResult).1.messages.length
      = loadedEmptyState.messages.length + 1) := by decide

/-- Claim C1 (amended): while Loaded with input non-empty after stripping,
a collaborator success with a NON-EMPTY result appends exactly one Exchange
{source, target, original := the input text, translation := the result} at the
end of history, and the history length increases by exactly 1; on a collaborator
error zero appends occur, and on a collaborator success with the empty string
zero appends occur as well. -/
theorem c1_translate_appends (st : SessionState)
    (input source_lang target_lang : String) (gen : Gen)
    (hload : st.model_loaded = true) (hinput : pyStrip input ≠ "") :
    (∀ result, gen st.tokenizer st.model input
        (dictGet LANGUAGES source_lang "eng_Latn")
        (dictGet LANGUAGES target_lang "spa_Latn") = Except.ok result →
      result ≠ "" →
      (translateStep st input source_lang target_lang gen).1.messages
          = st.messages ++
            [{ source := source_lang,
               target := target_lang,
               original := input,
               translation := result }] ∧
      (translateStep st input source_lang target_lang gen).1.messages.length
          = st.messages.length + 1) ∧
    (∀ e, gen st.tokenizer st.model input
        (dictGet LANGUAGES source_lang "eng_Latn")
        (dictGet LANGUAGES target_lang "spa_Latn") = Except.error e →
      (translateStep st input source_lang target_lang gen).1.messages
        = st.messages) ∧
    (gen st.tokenizer st.model input
        (dictGet LANGUAGES source_lang "eng_Latn")
        (dictGet LANGUAGES target_lang "spa_Latn") = Except.ok "" →
      (translateStep st input source_lang target_lang gen).1.messages
        = st.messages) := by
  refine ⟨?_, ?_, ?_⟩
  · intro result hgen hres
    constructor
    · simp [translateStep, translate_text, hload, hinput, hgen, hres]
    · simp [translateStep, translate_text, hload, hinput, hgen, hres]
  · intro e hgen
    simp [translateStep, translate_text, hload, hinput, hgen]
  · intro hgen
    simp [translateStep, translate_text, hload, hinput, hgen]

/-- Witness for the amended claim C1: a concrete loaded session, input
"Hello", collaborator returning "Hola" — exactly that exchange is appended. -/
theorem c1_translate_appends_witness :
    (translateStep loadedEmptyState "Hello" "English" "Spanish"
        genHola).1.messages
      = [{ source := "English", target := "Spanish", original := "Hello",
           translation := "Hola" }] := by
  have h := (c1_translate_appends loadedEmptyState "Hello" "English" "Spanish"
    genHola rfl (by decide)).1 "Hola" rfl (by decide)
  simpa using h.1

/-- Claim C2: while Loaded with non-empty input, if the generation collaborator
raises any error, the step shows the translation error (the `TranslationError`
surface) and leaves the whole session state — in particular `history` — exactly
as it was. -/
theorem c2_gen_error_no_mutation (st : SessionState)
    (input source_lang target_lang e : String) (gen : Gen)
    (hload : st.model_loaded = true) (hinput : pyStrip input ≠ "")
    (hgen : gen st.tokenizer st.model input
        (dictGet LANGUAGES source_lang "eng_Latn")
        (dictGet LANGUAGES target_lang "spa_Latn") = Except.error e) :
    translateStep st input source_lang target_lang gen
      = (st, [Display.errorTranslation e]) := by
  simp [translateStep, translate_text, hload, hinput, hgen]

/-- Witness for C2: loaded session with one prior exchange, collaborator
raising "boom" — the error is surfaced and the state is untouched. -/
theorem c2_gen_error_no_mutation_witness :
    translateStep loadedOneState "Hello" "English" "Spanish" genBoom
      = (loadedOneState, [Display.errorTranslation "boom"]) :=
  c2_gen_error_no_mutation loadedOneState "Hello" "English" "Spanish" "boom"
    genBoom rfl (by decide) rfl

/-- Claim C3: while Unloaded, every translate attempt fails with the
not-ready error and the state (hence history) is unchanged, for all text and
language arguments. -/
theorem c3_unloaded_not_ready (st : SessionState)
    (input source_lang target_lang : String) (gen : Gen)
    (h : st.model_loaded = false) :
    translateStep st input source_lang target_lang gen
      = (st, [Display.errorNotLoaded]) := by
  simp [translateStep, h]

/-- Witness for C3: the initial (unloaded) session rejects a translate of
"Hello" with the not-ready error. -/
theorem c3_unloaded_not_ready_witness :
    translateStep initialState "Hello" "English" "Spanish" genHola
      = (initialState, [Display.errorNotLoaded]) :=
  c3_unloaded_not_ready initialState "Hello" "English" "Spanish" genHola rfl

/-- Claim C4: while Loaded, input that strips to the empty string fails with
the empty-input error and the state (hence history) is unchanged. -/
theorem c4_empty_input (st : SessionState)
    (input source_lang target_lang : String) (gen : Gen)
    (hload : st.model_loaded = true) (hempty : pyStrip input = "") :
    translateStep st input source_lang target_lang gen
      = (st, [Display.errorEmptyInput]) := by
  simp [translateStep, hload, hempty]

/-- Witness for C4: a loaded session rejects whitespace-only input. -/
theorem c4_empty_input_witness :
    translateStep loadedOneState "   " "English" "Spanish" genHola
      = (loadedOneState, [Display.errorEmptyInput]) :=
  c4_empty_input loadedOneState "   " "English" "Spanish" genHola rfl (by decide)

/-- Claim C5: a display name outside the supported set never fails to resolve:
as a source language it resolves to "eng_Latn" and as a target language to
"spa_Latn" (the defaults used at app.py lines 81-82). -/
theorem c5_unknown_name_defaults (name : String) (h : ¬ name ∈ listNames) :
    dictGet LANGUAGES name "eng_Latn" = "eng_Latn" ∧
    dictGet LANGUAGES name "spa_Latn" = "spa_Latn" :=
  ⟨dictGet_of_not_mem LANGUAGES name "eng_Latn" h,
   dictGet_of_not_mem LANGUAGES name "spa_Latn" h⟩

/-- Witness for C5: "Klingon" is unsupported and resolves to the defaults. -/
theorem c5_unknown_name_defaults_witness :
    dictGet LANGUAGES "Klingon" "eng_Latn" = "eng_Latn" ∧
    dictGet LANGUAGES "Klingon" "spa_Latn" = "spa_Latn" :=
  c5_unknown_name_defaults "Klingon" (by decide)

/-- Claim C6: when the loader raises, the load step leaves an unloaded session
exactly as it was: no tokenizer handle, no model handle, loaded flag false. -/
theorem c6_load_failure_no_partial_state (st : SessionState) (e : String)
    (hload : st.model_loaded = false) (htok : st.tokenizer = none)
    (hmod : st.model = none) :
    loadModelStep st (Except.error e) = st ∧
    (loadModelStep st (Except.error e)).model_loaded = false ∧
    (loadModelStep st (Except.error e)).tokenizer = none ∧
    (loadModelStep st (Except.error e)).model = none := by
  refine ⟨?_, ?_, ?_, ?_⟩ <;>
    simp [loadModelStep, load_model, hload, htok, hmod]

/-- Witness for C6: a failing loader on the initial session. -/
theorem c6_load_failure_no_partial_state_witness :
    loadModelStep initialState (Except.error "missing weights") = initialState ∧
    (loadModelStep initialState (Except.error "missing weights")).model_loaded
      = false ∧
    (loadModelStep initialState (Except.error "missing weights")).tokenizer
      = none ∧
    (loadModelStep initialState (Except.error "missing weights")).model
      = none :=
  c6_load_failure_no_partial_state initialState "missing weights" rfl rfl rfl

/-- Claim C7: clearing the history empties it unconditionally (the rendered
history is the empty sequence) while the loaded flag, tokenizer handle and
model handle are exactly as before. -/
theorem c7_clear_history (st : SessionState) :
    (clearHistoryStep st).messages = [] ∧
    getHistory (clearHistoryStep st) = [] ∧
    (clearHistoryStep st).model_loaded = st.model_loaded ∧
    (clearHistoryStep st).tokenizer = st.tokenizer ∧
    (clearHistoryStep st).model = st.model := by
  simp [clearHistoryStep, getHistory]

/-- Witness for C7: clearing a loaded session holding one exchange. -/
theorem c7_clear_history_witness :
    (clearHistoryStep loadedOneState).messages = [] ∧
    getHistory (clearHistoryStep loadedOneState) = [] ∧
    (clearHistoryStep loadedOneState).model_loaded
      = loadedOneState.model_loaded ∧
    (clearHistoryStep loadedOneState).tokenizer = loadedOneState.tokenizer ∧
    (clearHistoryStep loadedOneState).model = loadedOneState.model :=
  c7_clear_history loadedOneState

/-- Claim C8: the catalog is a fixed mapping of 20 display names, the names
are pairwise distinct, the codes are pairwise distinct (the name → code map is
injective), every resolved code of a supported name is a registered code, and
the name enumeration is the fixed source-order list. -/
theorem c8_catalog_fixed :
    20 ≤ LANGUAGES.length ∧
    (listNames).Nodup ∧
    (LANGUAGES.map Prod.snd).Nodup ∧
    (listNames.all (fun n =>
      (LANGUAGES.map Prod.snd).contains (dictGet LANGUAGES n "eng_Latn")))
      = true ∧
    listNames = ["English", "Spanish", "French", "German",
      "Chinese (Simplified)", "Chinese (Traditional)", "Japanese", "Korean",
      "Arabic", "Hindi", "Portuguese", "Russian", "Italian", "Dutch",
      "Turkish", "Vietnamese", "Thai", "Polish", "Swedish", "Norwegian"] := by
  refine ⟨by decide, by decide, by decide, by decide, rfl⟩

/-- Claim C9: while Loaded with non-empty input, a collaborator success whose
result is the empty string behaves as a silent failure: the state (hence
history) is unchanged and nothing at all is displayed — no translation output,
no success banner, and no error. -/
theorem c9_empty_result_silent (st : SessionState)
    (input source_lang target_lang : String) (gen : Gen)
    (hload : st.model_loaded = true) (hinput : pyStrip input ≠ "")
    (hgen : gen st.tokenizer st.model input
        (dictGet LANGUAGES source_lang "eng_Latn")
        (dictGet LANGUAGES target_lang "spa_Latn") = Except.ok "") :
    translateStep st input source_lang target_lang gen = (st, []) := by
  simp [translateStep, translate_text, hload, hinput, hgen]

/-- Witness for C9: a loaded session, input "Hello", collaborator returning
the empty string — nothing is appended and nothing displayed. -/
theorem c9_empty_result_silent_witness :
    translateStep loadedOneState "Hello" "English" "Spanish" genEmptyResult
      = (loadedOneState, []) :=
  c9_empty_result_silent loadedOneState "Hello" "English" "Spanish"
    genEmptyResult rfl (by decide) rfl

/-- Claim C10: the Loaded-state guard precedes the non-empty-text guard: while
Unloaded with input that strips to empty, the step fails with the not-ready
error (not the empty-input error) and the state is unchanged. -/
theorem c10_guard_order (st : SessionState)
    (input source_lang target_lang : String) (gen : Gen)
    (hload : st.model_loaded = false) (_hempty : pyStrip input = "") :
    translateStep st input source_lang target_lang gen
      = (st, [Display.errorNotLoaded]) ∧
    (translateStep st input source_lang target_lang gen).2
      ≠ [Display.errorEmptyInput] := by
  have h : translateStep st input source_lang target_lang gen
      = (st, [Display.errorNotLoaded]) := by
    simp [translateStep, hload]
  exact ⟨h, by simp [h]⟩

/-- Witness for C10: the initial (unloaded) session with whitespace-only
input fails not-ready, not empty-input. -/
theorem c10_guard_order_witness :
    translateStep initialState "   " "English" "Spanish" genHola
      = (initialState, [Display.errorNotLoaded]) ∧
    (translateStep initialState "   " "English" "Spanish" genHola).2
      ≠ [Display.errorEmptyInput] :=
  c10_guard_order initialState "   " "English" "Spanish" genHola rfl (by decide)

end LingoVoice
